import Mathlib

/-!
Shallow embedding of `src/Weave.py` (the Weave Streamlit app).

The app has three relevant pieces:
* the Request Builder inside `transform_html` (the user-message f-string and
  the `GenerateContentConfig` with its response schema declaration),
* the Response Interpreter (`ResponseSchema.model_validate_json`, a pydantic
  model with a required `type : str` field and four `Optional[str]` fields),
* the Transform button handler (precondition checks and rendering).

The raw reply text returned by the generation service is modelled by its JSON
parse result: `none` when the text is not valid JSON, `some v` when it parses
to the JSON value `v`.  Side effects (`st.error`, `st.code`, ...) are modelled
as explicit lists of render items; the network call is modelled by a counter
of service invocations together with the request object that would be sent.
-/

namespace Weave

/-- JSON values, the shape of the parsed service reply. -/
inductive Json where
  | null : Json
  | str : String → Json
  | num : Int → Json
  | bool : Bool → Json
  | arr : List Json → Json
  | obj : List (String × Json) → Json

/-- First value bound to `key` in an association list of JSON object fields. -/
def getField : List (String × Json) → String → Option Json
  | [], _ => none
  | (k, v) :: rest, key => if k = key then some v else getField rest key

/-- The pydantic model of `src/Weave.py` lines 27-34: a required `type : str`
discriminator and four `Optional[str]` fields defaulting to `None`.  Note that
pydantic enforces only the *types* here: `type` may be any string. -/
structure ResponseSchema where
  type : String
  message : Option String := none
  code : Option String := none
  changes : Option String := none
  recommendations : Option String := none
deriving DecidableEq, Repr

/-- Pydantic validation of a required `str` field: present and a JSON string,
or a validation error. -/
def validateStr : Option Json → Except String String
  | some (Json.str s) => Except.ok s
  | some _ => Except.error "Input should be a valid string"
  | none => Except.error "Field required"

/-- Pydantic validation of an `Optional[str]` field: absent or `null` becomes
`None`; a JSON string is kept; anything else is a validation error. -/
def validateOptStr : Option Json → Except String (Option String)
  | none => Except.ok none
  | some Json.null => Except.ok none
  | some (Json.str s) => Except.ok (some s)
  | some _ => Except.error "Input should be a valid string"

/-- `ResponseSchema.model_validate` on a parsed JSON value: the input must be
a JSON object; the `type` field is a required string, the other four fields
are optional strings; extra fields are ignored (pydantic default). -/
def ResponseSchema.model_validate (j : Json) : Except String ResponseSchema :=
  match j with
  | Json.obj fields =>
    match validateStr (getField fields "type") with
    | Except.error e => Except.error e
    | Except.ok t =>
      match validateOptStr (getField fields "message") with
      | Except.error e => Except.error e
      | Except.ok m =>
        match validateOptStr (getField fields "code") with
        | Except.error e => Except.error e
        | Except.ok c =>
          match validateOptStr (getField fields "changes") with
          | Except.error e => Except.error e
          | Except.ok ch =>
            match validateOptStr (getField fields "recommendations") with
            | Except.error e => Except.error e
            | Except.ok r =>
              Except.ok { type := t, message := m, code := c, changes := ch,
                          recommendations := r }
  | _ => Except.error "Input should be a valid dictionary"

/-- `ResponseSchema.model_validate_json` (line 151): the raw reply text is
modelled by its JSON parse result (`none` = text that is not valid JSON). -/
def ResponseSchema.model_validate_json : Option Json → Except String ResponseSchema
  | none => Except.error "Invalid JSON"
  | some v => ResponseSchema.model_validate v

/-- Serialization helper: an optional string field is emitted as a string
member when present and omitted when absent. -/
def optField (key : String) : Option String → List (String × Json)
  | none => []
  | some s => [(key, Json.str s)]

/-- Serialize a reply object to the declared JSON shape: the discriminator
plus whichever of the four optional string fields are present. -/
def ResponseSchema.toJson (r : ResponseSchema) : Json :=
  Json.obj ([("type", Json.str r.type)] ++ optField "message" r.message ++
    optField "code" r.code ++ optField "changes" r.changes ++
    optField "recommendations" r.recommendations)

/-- `true` exactly when the validation succeeded. -/
def vOk : Except String ResponseSchema → Bool
  | Except.ok _ => true
  | Except.error _ => false

/-- `true` exactly when the parsed reply is a JSON object whose `type` field
is present and is a JSON string. -/
def hasStrType : Option Json → Bool
  | some (Json.obj fields) =>
      match getField fields "type" with
      | some (Json.str _) => true
      | _ => false
  | _ => false

/-- Python `str.lower()`: lowercase every character.  (Both occurrences in the
source, line 50 and line 190, act on ASCII strings, where this is exact.) -/
def pyLower (s : String) : String := String.mk (s.data.map Char.toLower)

/-- A `types.Part` of the outbound request (only the text is relevant). -/
structure Part where
  text : String
deriving DecidableEq, Repr

/-- A `types.Content` of the outbound request. -/
structure Content where
  role : String
  parts : List Part
deriving DecidableEq, Repr

/-- The `contents` list built in `transform_html` (lines 46-53): one user
message whose text is the f-string
`f"FORMAT: \x7boutput_format.lower()\x7d\nTEMPLATE: \x7btemplate\x7d"`. -/
def buildContents (output_format template : String) : List Content :=
  [{ role := "user",
     parts := [{ text := "FORMAT: " ++ pyLower output_format ++ "\nTEMPLATE: " ++ template }] }]

/-- The `type` of a `genai.types.Schema` node used in this app. -/
inductive SchemaType where
  | object : SchemaType
  | string : SchemaType
deriving DecidableEq, Repr

/-- One property of the declared response shape: its type and (possibly empty)
enum constraint. -/
structure FieldSchema where
  type : SchemaType
  enum : List String := []
deriving DecidableEq, Repr

/-- The top-level `genai.types.Schema` attached as `response_schema`. -/
structure ResponseShapeDecl where
  type : SchemaType
  required : List String
  properties : List (String × FieldSchema)
deriving DecidableEq, Repr

/-- `types.ThinkingConfig` (lines 55-57). -/
structure ThinkingConfig where
  thinking_budget : Int
deriving DecidableEq, Repr

/-- `types.GenerateContentConfig` (lines 54-80): thinking budget, response
MIME type and the response shape declaration.  The fixed system-instruction
text does not bear on any claim and is not modelled field by field. -/
structure GenerateContentConfig where
  thinking_config : ThinkingConfig
  response_mime_type : String
  response_schema : ResponseShapeDecl
deriving DecidableEq, Repr

/-- The response shape declaration of lines 59-80: an OBJECT with required
`["type"]`, the `type` property a STRING with enum `["code", "text"]`, and
four further STRING properties with no enum. -/
def responseShapeDecl : ResponseShapeDecl :=
  { type := SchemaType.object,
    required := ["type"],
    properties :=
      [("type", { type := SchemaType.string, enum := ["code", "text"] }),
       ("message", { type := SchemaType.string }),
       ("code", { type := SchemaType.string }),
       ("changes", { type := SchemaType.string }),
       ("recommendations", { type := SchemaType.string })] }

/-- The `generate_content_config` value built on every call (lines 54-143). -/
def generate_content_config : GenerateContentConfig :=
  { thinking_config := { thinking_budget := 2018 },
    response_mime_type := "application/json",
    response_schema := responseShapeDecl }

/-- The outbound request `transform_html` hands to
`client.models.generate_content` (lines 145-149). -/
structure GenerationRequest where
  model : String
  contents : List Content
  config : GenerateContentConfig
deriving DecidableEq, Repr

/-- Python truthiness of `st.session_state.get("gemini_api_key")`: falsy when
the session holds no credential (`None`) or an empty string. -/
def keyPresent : Option String → Bool
  | none => false
  | some s => !s.isEmpty

/-- Everything observable about one `transform_html` invocation: whether a
`genai.Client` was constructed, how many service calls were made, the request
that was sent (if any), the `st.error` notices emitted, and the returned
value (`none` models Python `None`). -/
structure TransformTrace where
  clientConstructed : Bool
  serviceCalls : Nat
  request : Option GenerationRequest
  errors : List String
  result : Option ResponseSchema
deriving DecidableEq, Repr

/-- `transform_html` (lines 36-155).  `apiKey` is the session credential;
`serviceReply` is the raw text of the service reply, modelled by its JSON
parse result.  With no credential it errors and returns `None` before
constructing a client; otherwise it builds the request, calls the service
exactly once, and validates the reply, returning `None` on a validation
error. -/
def transform_html (apiKey : Option String) (output_format template : String)
    (serviceReply : Option Json) : TransformTrace :=
  if keyPresent apiKey = false then
    { clientConstructed := false, serviceCalls := 0, request := none,
      errors := ["Please enter your Gemini API key in the sidebar."],
      result := none }
  else
    let req : GenerationRequest :=
      { model := "gemini-2.5-flash-preview-05-20",
        contents := buildContents output_format template,
        config := generate_content_config }
    match ResponseSchema.model_validate_json serviceReply with
    | Except.error e =>
        { clientConstructed := true, serviceCalls := 1, request := some req,
          errors := ["Error in response schema validation: " ++ e],
          result := none }
    | Except.ok r =>
        { clientConstructed := true, serviceCalls := 1, request := some req,
          errors := [], result := some r }

/-- The `output_lang_map` dict (lines 167-172). -/
def output_lang_map : List (String × String) :=
  [("HTML", "html"), ("React", "javascript"), ("Vue", "html"), ("Flutter", "dart")]

/-- `dict.get` on `output_lang_map`. -/
def langOf : List (String × String) → String → Option String
  | [], _ => none
  | (k, v) :: rest, key => if k = key then some v else langOf rest key

/-- The options offered by the `st.pills` widget (`output_lang_map.keys()`):
its value is always `None` or one of these strings. -/
def pillOptions : List String := output_lang_map.map Prod.fst

/-- One visible output of the handler: `st.error`, `st.success`, `st.code`
(body and language, both possibly `None`), `st.info`, `st.warning`,
`st.text` (argument possibly `None`). -/
inductive RenderItem where
  | error : String → RenderItem
  | success : String → RenderItem
  | codeBlock : Option String → Option String → RenderItem
  | info : String → RenderItem
  | warning : String → RenderItem
  | text : Option String → RenderItem
deriving DecidableEq, Repr

/-- Rendering of the `transform_html` return value (lines 193-204): a truthy
result is dispatched on `type == "code"`; `None` renders the generic failure
notice. -/
def renderResult : Option ResponseSchema → String → List RenderItem
  | none, _ => [RenderItem.error "Failed to transform the HTML code."]
  | some r, fmt =>
      if r.type = "code" then
        [RenderItem.success "Transformation successful!",
         RenderItem.codeBlock r.code (langOf output_lang_map fmt)] ++
        (match r.changes with
         | some c => [RenderItem.info ("Changes made: " ++ c)]
         | none => []) ++
        (match r.recommendations with
         | some rc => [RenderItem.warning ("Recommendations: " ++ rc)]
         | none => [])
      else
        [RenderItem.text r.message]

/-- Everything observable about one press of the Transform button. -/
structure HandlerTrace where
  transformCalled : Bool
  trace : Option TransformTrace
  render : List RenderItem
deriving DecidableEq, Repr

/-- The Transform button handler (lines 180-204): empty template, missing
format and missing credential are blocked in that order with an `st.error`;
otherwise `transform_html` runs on the lowercased pill value and its result
is rendered. -/
def transformButtonHandler (html_to_transform : String)
    (output_format : Option String) (apiKey : Option String)
    (serviceReply : Option Json) : HandlerTrace :=
  if html_to_transform.isEmpty then
    { transformCalled := false, trace := none,
      render := [RenderItem.error "Please enter some HTML code to transform."] }
  else
    match output_format with
    | none =>
        { transformCalled := false, trace := none,
          render := [RenderItem.error "Please select an output format."] }
    | some fmt =>
        if apiKey = none then
          { transformCalled := false, trace := none,
            render := [RenderItem.error "Please enter your Gemini API key in the sidebar."] }
        else
          let tr := transform_html apiKey (pyLower fmt) html_to_transform serviceReply
          { transformCalled := true, trace := some tr,
            render := renderResult tr.result fmt }

/-- Total number of outbound service calls made by one press of the button. -/
def totalServiceCalls (h : HandlerTrace) : Nat :=
  match h.trace with
  | none => 0
  | some t => t.serviceCalls

/-- The closed set of wire-format values accepted by the spec. -/
def closedFormats : List String := ["html", "react", "vue", "flutter"]

end Weave

/-- String concatenation is associative (used to regroup the f-string of
line 50 into the spec's two-line reading). -/
theorem strAppendAssoc (a b c : String) : a ++ b ++ c = a ++ (b ++ c) := by
  cases a with
  | mk da =>
    cases b with
    | mk db =>
      cases c with
      | mk dc =>
        show String.mk (da ++ db ++ dc) = String.mk (da ++ (db ++ dc))
        rw [List.append_assoc]

/-- C1: for every valid pair — `outputFormat` in the closed set, `template`
non-empty — the Request Builder's outbound contents consist of exactly one
user message whose text is the two-line string: `FORMAT: ` followed by the
lowercased format, a newline, then `TEMPLATE: ` followed by the template
verbatim. -/
theorem C1_user_message (f t : String) (hf : f ∈ Weave.closedFormats)
    (ht : t ≠ "") :
    Weave.buildContents f t =
      [{ role := "user",
         parts := [{ text :=
           "FORMAT: " ++ Weave.pyLower f ++ "\n" ++ ("TEMPLATE: " ++ t) }] }] := by
  have h2 : "FORMAT: " ++ Weave.pyLower f ++ "\nTEMPLATE: " ++ t =
      "FORMAT: " ++ Weave.pyLower f ++ "\n" ++ ("TEMPLATE: " ++ t) := by
    rw [show ("\nTEMPLATE: " : String) = "\n" ++ "TEMPLATE: " from rfl,
        ← strAppendAssoc ("FORMAT: " ++ Weave.pyLower f), strAppendAssoc]
  simp only [Weave.buildContents]
  rw [h2]

/-- C1 witness: the theorem at the concrete pair `("html", "<div/>")`. -/
theorem C1_user_message_witness :
    ("html" ∈ Weave.closedFormats) ∧ ("<div/>" : String) ≠ "" ∧
    Weave.buildContents "html" "<div/>" =
      [{ role := "user",
         parts := [{ text :=
           "FORMAT: " ++ Weave.pyLower "html" ++ "\n" ++
             ("TEMPLATE: " ++ "<div/>") }] }] :=
  ⟨by decide, by decide, C1_user_message "html" "<div/>" (by decide) (by decide)⟩

/-- C2 counterexample: the raw reply `\x7b"type":"image"\x7d`, whose
discriminator is outside `\x7bcode, text\x7d`, does NOT fail validation —
the interpreter returns a `GenerationReply` with discriminator `"image"`,
because the pydantic model constrains `type` only to be a string. -/
theorem C2_counterexample :
    Weave.ResponseSchema.model_validate_json
        (some (Weave.Json.obj [("type", Weave.Json.str "image")])) =
      Except.ok { type := "image" } := rfl

/-- C2 (amended): validation fails whenever the raw reply is not valid JSON,
is not a JSON object, or its `type` field is missing or not a string;
a `type` that is any string — also one outside `\x7bcode, text\x7d` —
passes. -/
theorem C2_amended_validation (raw : Option Weave.Json)
    (h : Weave.hasStrType raw = false) :
    Weave.vOk (Weave.ResponseSchema.model_validate_json raw) = false := by
  cases raw with
  | none => rfl
  | some v =>
    cases v with
    | null => rfl
    | str s => rfl
    | num n => rfl
    | bool b => rfl
    | arr l => rfl
    | obj fields =>
      simp only [Weave.hasStrType] at h
      cases hg : Weave.getField fields "type" with
      | none =>
          simp [Weave.ResponseSchema.model_validate_json,
                Weave.ResponseSchema.model_validate, hg, Weave.validateStr,
                Weave.vOk]
      | some w =>
          cases w with
          | str s => rw [hg] at h; simp at h
          | null =>
              simp [Weave.ResponseSchema.model_validate_json,
                    Weave.ResponseSchema.model_validate, hg, Weave.validateStr,
                    Weave.vOk]
          | num n =>
              simp [Weave.ResponseSchema.model_validate_json,
                    Weave.ResponseSchema.model_validate, hg, Weave.validateStr,
                    Weave.vOk]
          | bool b =>
              simp [Weave.ResponseSchema.model_validate_json,
                    Weave.ResponseSchema.model_validate, hg, Weave.validateStr,
                    Weave.vOk]
          | arr l =>
              simp [Weave.ResponseSchema.model_validate_json,
                    Weave.ResponseSchema.model_validate, hg, Weave.validateStr,
                    Weave.vOk]
          | obj f2 =>
              simp [Weave.ResponseSchema.model_validate_json,
                    Weave.ResponseSchema.model_validate, hg, Weave.validateStr,
                    Weave.vOk]

/-- C2 witness: a reply with the `type` field missing fails validation. -/
theorem C2_amended_validation_witness :
    Weave.hasStrType (some (Weave.Json.obj [])) = false ∧
    Weave.vOk (Weave.ResponseSchema.model_validate_json
      (some (Weave.Json.obj []))) = false :=
  ⟨rfl, C2_amended_validation (some (Weave.Json.obj [])) rfl⟩

/-- C3: round-trip — serializing any reply object conforming to the declared
shape (discriminator `code` or `text`, any subset of the four optional string
fields) and interpreting the result yields the identical `GenerationReply`. -/
theorem C3_round_trip (r : Weave.ResponseSchema)
    (h : r.type = "code" ∨ r.type = "text") :
    Weave.ResponseSchema.model_validate_json (some r.toJson) = Except.ok r := by
  obtain ⟨t, m, c, ch, rec⟩ := r
  cases m <;> cases c <;> cases ch <;> cases rec <;> rfl

/-- C3 witness: the scenario reply with `code` and `changes` fields
round-trips to `kind = Code` with the same `code` and changes summary. -/
theorem C3_round_trip_witness :
    (("code" : String) = "code" ∨ ("code" : String) = "text") ∧
    Weave.ResponseSchema.model_validate_json
        (some (Weave.ResponseSchema.toJson
          { type := "code",
            code := some "<button class=\"px-4 py-2\">Click</button>",
            changes := some "Added padding" })) =
      Except.ok { type := "code",
                  code := some "<button class=\"px-4 py-2\">Click</button>",
                  changes := some "Added padding" } :=
  ⟨Or.inl rfl,
   C3_round_trip
     { type := "code",
       code := some "<button class=\"px-4 py-2\">Click</button>",
       changes := some "Added padding" } (Or.inl rfl)⟩

/-- C4: for every value the format widget can hold that is not (modulo the
display-case lowering) a member of the closed set, the button handler blocks
the call before `transform_html` runs: no request is built and no service
call is made. -/
theorem C4_unknown_format_blocked (html : String) (fmt : Option String)
    (key : Option String) (reply : Option Weave.Json)
    (hpills : fmt = none ∨ ∃ s, fmt = some s ∧ s ∈ Weave.pillOptions)
    (hout : ∀ s, fmt = some s → Weave.pyLower s ∉ Weave.closedFormats) :
    (Weave.transformButtonHandler html fmt key reply).transformCalled = false ∧
    (Weave.transformButtonHandler html fmt key reply).trace = none ∧
    Weave.totalServiceCalls (Weave.transformButtonHandler html fmt key reply) = 0 := by
  rcases hpills with rfl | ⟨s, rfl, hs⟩
  · cases hh : html.isEmpty <;>
      simp [Weave.transformButtonHandler, Weave.totalServiceCalls, hh]
  · exfalso
    have hn := hout s rfl
    simp [Weave.pillOptions, Weave.output_lang_map] at hs
    rcases hs with rfl | rfl | rfl | rfl <;> exact hn (by decide)

/-- C4 witness: with no format selected the handler makes no service call. -/
theorem C4_unknown_format_blocked_witness :
    (Weave.transformButtonHandler "<div/>" none (some "k") none).transformCalled = false ∧
    (Weave.transformButtonHandler "<div/>" none (some "k") none).trace = none ∧
    Weave.totalServiceCalls (Weave.transformButtonHandler "<div/>" none (some "k") none) = 0 :=
  C4_unknown_format_blocked "<div/>" none (some "k") none (Or.inl rfl)
    (fun _ h => Option.noConfusion h)

/-- C5: an empty template short-circuits the handler with the missing-input
notice, for every format, credential and service behavior: `transform_html`
is never called, no trace (hence no request, no service call) exists, and
only the error notice is rendered. -/
theorem C5_empty_template (fmt : Option String) (key : Option String)
    (reply : Option Weave.Json) :
    Weave.transformButtonHandler "" fmt key reply =
      { transformCalled := false, trace := none,
        render := [Weave.RenderItem.error "Please enter some HTML code to transform."] } := rfl

/-- C6: when the reply fails schema validation and a credential is present,
the call fails recoverably — the result is `None` (no artifact), an error
notice is reported, and exactly one service call was made (no retry). -/
theorem C6_validation_failure_recoverable (key : Option String) (f t : String)
    (reply : Option Weave.Json)
    (hkey : Weave.keyPresent key = true)
    (hfail : Weave.vOk (Weave.ResponseSchema.model_validate_json reply) = false) :
    (Weave.transform_html key f t reply).result = none ∧
    (Weave.transform_html key f t reply).serviceCalls = 1 ∧
    (Weave.transform_html key f t reply).errors ≠ [] := by
  cases hv : Weave.ResponseSchema.model_validate_json reply with
  | ok r => rw [hv] at hfail; simp [Weave.vOk] at hfail
  | error e => simp [Weave.transform_html, hkey, hv]

/-- C6 witness: an unparseable reply with a credential present. -/
theorem C6_validation_failure_recoverable_witness :
    Weave.keyPresent (some "k") = true ∧
    Weave.vOk (Weave.ResponseSchema.model_validate_json none) = false ∧
    ((Weave.transform_html (some "k") "html" "<div/>" none).result = none ∧
     (Weave.transform_html (some "k") "html" "<div/>" none).serviceCalls = 1 ∧
     (Weave.transform_html (some "k") "html" "<div/>" none).errors ≠ []) :=
  ⟨rfl, rfl, C6_validation_failure_recoverable (some "k") "html" "<div/>" none rfl rfl⟩

/-- C7: every outbound request `transform_html` sends carries the response
shape declaration: an object with required discriminator `type` constrained
to the enum `["code", "text"]` and exactly the four optional (not required)
string fields `message`, `code`, `changes`, `recommendations`. -/
theorem C7_response_shape (key : Option String) (f t : String)
    (reply : Option Weave.Json) (req : Weave.GenerationRequest)
    (h : (Weave.transform_html key f t reply).request = some req) :
    req.config.response_schema.type = Weave.SchemaType.object ∧
    req.config.response_schema.required = ["type"] ∧
    req.config.response_schema.properties =
      [("type", { type := Weave.SchemaType.string, enum := ["code", "text"] }),
       ("message", { type := Weave.SchemaType.string, enum := [] }),
       ("code", { type := Weave.SchemaType.string, enum := [] }),
       ("changes", { type := Weave.SchemaType.string, enum := [] }),
       ("recommendations", { type := Weave.SchemaType.string, enum := [] })] := by
  have hc : req.config = Weave.generate_content_config := by
    cases hk : Weave.keyPresent key with
    | false => simp [Weave.transform_html, hk] at h
    | true =>
        cases hv : Weave.ResponseSchema.model_validate_json reply with
        | error e =>
            simp [Weave.transform_html, hk, hv] at h
            rw [← h]
        | ok r =>
            simp [Weave.transform_html, hk, hv] at h
            rw [← h]
  rw [hc]
  exact ⟨rfl, rfl, rfl⟩

/-- C7 witness: the request sent for `("html", "<div/>")` with a credential
present carries exactly that declaration. -/
theorem C7_response_shape_witness :
    (Weave.transform_html (some "k") "html" "<div/>" none).request =
      some { model := "gemini-2.5-flash-preview-05-20",
             contents := Weave.buildContents "html" "<div/>",
             config := Weave.generate_content_config } ∧
    Weave.generate_content_config.response_schema.type = Weave.SchemaType.object ∧
    Weave.generate_content_config.response_schema.required = ["type"] ∧
    Weave.generate_content_config.response_schema.properties =
      [("type", { type := Weave.SchemaType.string, enum := ["code", "text"] }),
       ("message", { type := Weave.SchemaType.string, enum := [] }),
       ("code", { type := Weave.SchemaType.string, enum := [] }),
       ("changes", { type := Weave.SchemaType.string, enum := [] }),
       ("recommendations", { type := Weave.SchemaType.string, enum := [] })] :=
  ⟨rfl,
   C7_response_shape (some "k") "html" "<div/>" none
     { model := "gemini-2.5-flash-preview-05-20",
       contents := Weave.buildContents "html" "<div/>",
       config := Weave.generate_content_config } rfl⟩

/-- C8: the reply `\x7b"type":"code"\x7d` with no `code` field passes schema
validation (code becomes `None`), and the handler passes it through to the
code branch of rendering, displaying an empty code block (body `None`). -/
theorem C8_code_without_code_field :
    Weave.ResponseSchema.model_validate_json
        (some (Weave.Json.obj [("type", Weave.Json.str "code")])) =
      Except.ok { type := "code" } ∧
    (Weave.transformButtonHandler "<div/>" (some "HTML") (some "k")
        (some (Weave.Json.obj [("type", Weave.Json.str "code")]))).render =
      [Weave.RenderItem.success "Transformation successful!",
       Weave.RenderItem.codeBlock none (some "html")] :=
  ⟨rfl, rfl⟩

/-- C9: with no session credential, `transform_html` returns `None` without
constructing a client or calling the service, and the caller renders that
`None` with the same generic failure notice it uses for a schema-validation
failure (shown here against a reply whose `type` field is not a string). -/
theorem C9_missing_credential (f t : String) (reply : Option Weave.Json)
    (fmt : String) :
    (Weave.transform_html none f t reply).result = none ∧
    (Weave.transform_html none f t reply).clientConstructed = false ∧
    (Weave.transform_html none f t reply).serviceCalls = 0 ∧
    Weave.renderResult (Weave.transform_html none f t reply).result fmt =
      [Weave.RenderItem.error "Failed to transform the HTML code."] ∧
    Weave.renderResult (Weave.transform_html none f t reply).result fmt =
      Weave.renderResult (Weave.transform_html (some "k") f t
        (some (Weave.Json.obj [("type", Weave.Json.num 0)]))).result fmt :=
  ⟨rfl, rfl, rfl, rfl, rfl⟩

/-- C10: presentation dispatch is decided solely by the test
`type == "code"`: every validated reply whose discriminator is any other
string — also one outside the `\x7bcode, text\x7d` enum — lands in the text
branch and its (possibly absent) `message` field is displayed. -/
theorem C10_dispatch_on_code (raw : Option Weave.Json)
    (r : Weave.ResponseSchema) (fmt : String)
    (hv : Weave.ResponseSchema.model_validate_json raw = Except.ok r)
    (hne : r.type ≠ "code") :
    Weave.renderResult (some r) fmt = [Weave.RenderItem.text r.message] := by
  simp [Weave.renderResult, hne]

/-- C10 witness: the validated reply `\x7b"type":"image"\x7d` renders as the
text branch displaying the absent message. -/
theorem C10_dispatch_on_code_witness :
    Weave.ResponseSchema.model_validate_json
        (some (Weave.Json.obj [("type", Weave.Json.str "image")])) =
      Except.ok { type := "image" } ∧
    ({ type := "image" } : Weave.ResponseSchema).type ≠ "code" ∧
    Weave.renderResult (some { type := "image" }) "HTML" =
      [Weave.RenderItem.text none] :=
  ⟨rfl, by decide,
   C10_dispatch_on_code (some (Weave.Json.obj [("type", Weave.Json.str "image")]))
     { type := "image" } "HTML" rfl (by decide)⟩
